/-
Verification of the cloudness solar-irradiance library.

Shallow embedding of:
  - cloudness/src/utils/is_leap_year.py
  - cloudness/src/utils/trigonometric_functions.py
  - cloudness/src/global_irradiance/irradiance.py

Python floats are modelled as real numbers; functions that can raise are
modelled in `Except CloudnessError`.  `np.sin`, `np.cos`, `np.tan`,
`np.arccos` are `Real.sin`, `Real.cos`, `Real.tan`, `Real.arccos`;
`np.deg2rad x = x * π / 180` and `np.rad2deg x = x * 180 / π`.
-/
import Mathlib

namespace Cloudness

/-- The exceptions the library raises: `ValueError msg` for the latitude and
year validations, `DayOfYearError day ndays` for the day-of-year guard in
every formula (the Python exception stores `day_of_year` and `ndays`). -/
inductive CloudnessError where
  | valueError : String → CloudnessError
  | dayOfYearError : ℤ → ℤ → CloudnessError
  deriving DecidableEq

/-- `is_leap_year` from cloudness/src/utils/is_leap_year.py:
raises `ValueError` when `year < 0`, otherwise returns
`year % 4 == 0 and (year % 100 != 0 or year % 400 == 0)`. -/
def is_leap_year (year : ℤ) : Except CloudnessError Bool :=
  if year < 0 then
    .error (.valueError "Year must be a positive integer.")
  else
    .ok (year % 4 == 0 && (year % 100 != 0 || year % 400 == 0))

noncomputable section

open scoped Classical

/-- `np.deg2rad`. -/
def deg2rad (x : ℝ) : ℝ := x * Real.pi / 180

/-- `np.rad2deg`. -/
def rad2deg (x : ℝ) : ℝ := x * 180 / Real.pi

namespace tf

/-- `tf.sin` from trigonometric_functions.py: converts degrees to radians
when the flag is set (default), then applies `np.sin`. -/
def sin (x : ℝ) (angle_in_degrees : Bool := true) : ℝ :=
  Real.sin (if angle_in_degrees then deg2rad x else x)

/-- `tf.cos` from trigonometric_functions.py. -/
def cos (x : ℝ) (angle_in_degrees : Bool := true) : ℝ :=
  Real.cos (if angle_in_degrees then deg2rad x else x)

/-- `tf.tan` from trigonometric_functions.py. -/
def tan (x : ℝ) (angle_in_degrees : Bool := true) : ℝ :=
  Real.tan (if angle_in_degrees then deg2rad x else x)

/-- `tf.arcsin` from trigonometric_functions.py: applies `np.arcsin`, then
converts the radian result to degrees when the flag is set (default). -/
def arcsin (x : ℝ) (angle_in_degrees : Bool := true) : ℝ :=
  if angle_in_degrees then rad2deg (Real.arcsin x) else Real.arcsin x

/-- `tf.arccos` from trigonometric_functions.py. -/
def arccos (x : ℝ) (angle_in_degrees : Bool := true) : ℝ :=
  if angle_in_degrees then rad2deg (Real.arccos x) else Real.arccos x

/-- `tf.arctan` from trigonometric_functions.py. -/
def arctan (x : ℝ) (angle_in_degrees : Bool := true) : ℝ :=
  if angle_in_degrees then rad2deg (Real.arctan x) else Real.arctan x

end tf

/-- The state of a constructed `Irradiance` object: the latitude (degrees)
and the number of days in the year. -/
structure Irradiance where
  latitude : ℝ
  ndays : ℤ

namespace Irradiance

/-- `Irradiance.__init__`: raises `ValueError` when `latitude < -90` or
`latitude > 90`; otherwise sets `ndays = 366 if is_leap_year(year) else 365`
(propagating the error `is_leap_year` raises on a negative year). -/
def init (latitude : ℝ) (year : ℤ) : Except CloudnessError Irradiance :=
  if latitude < -90 ∨ latitude > 90 then
    .error (.valueError "Latitude must be between -90 and 90 degrees.")
  else do
    let leap ← is_leap_year year
    return ⟨latitude, if leap then 366 else 365⟩

/-- `Irradiance.declination_angle`:
`23.45 * tf.sin((360 / self.ndays) * (284 + day_of_year))` after the
day-of-year guard. -/
def declination_angle (m : Irradiance) (day_of_year : ℤ) :
    Except CloudnessError ℝ :=
  if day_of_year < 1 ∨ day_of_year > m.ndays then
    .error (.dayOfYearError day_of_year m.ndays)
  else
    .ok (23.45 * tf.sin ((360 / (m.ndays : ℝ)) * (284 + (day_of_year : ℝ))))

/-- `Irradiance.sunset_hour_angle`:
`np.arccos(-tf.tan(self.latitude) * tf.tan(delta))` after the guard, with
`delta = self.declination_angle(day_of_year)`.  Note the source applies
`np.arccos` (radian result), not `tf.arccos`. -/
def sunset_hour_angle (m : Irradiance) (day_of_year : ℤ) :
    Except CloudnessError ℝ :=
  if day_of_year < 1 ∨ day_of_year > m.ndays then
    .error (.dayOfYearError day_of_year m.ndays)
  else do
    let delta ← m.declination_angle day_of_year
    return Real.arccos (-(tf.tan m.latitude) * tf.tan delta)

/-- `Irradiance.earth_sun_distance`: with
`X = 2 * np.pi * (day_of_year - 1) / self.ndays`, returns
`1.000110 + 0.34221 * tf.cos(X) + 0.01280 * tf.sin(X)
 + 0.000719 * tf.cos(2 * X) + 0.000077 * tf.sin(2 * X)`.
Note every `tf` call here uses the default `angle_in_degrees=True`. -/
def earth_sun_distance (m : Irradiance) (day_of_year : ℤ) :
    Except CloudnessError ℝ :=
  if day_of_year < 1 ∨ day_of_year > m.ndays then
    .error (.dayOfYearError day_of_year m.ndays)
  else
    let X : ℝ := 2 * Real.pi * ((day_of_year : ℝ) - 1) / (m.ndays : ℝ)
    .ok (1.000110 + 0.34221 * tf.cos X + 0.01280 * tf.sin X
      + 0.000719 * tf.cos (2 * X) + 0.000077 * tf.sin (2 * X))

/-- `Irradiance.extraterrestrial_solar_radiation`:
`37.60 * e0 * (h * tf.sin(lat) * tf.sin(delta)
               + tf.cos(lat) * tf.cos(delta) * np.sin(h))`
after the guard; `delta`, `e0`, `h` are recomputed via the other methods.
Note the last factor is `np.sin(h)` (radian mode), not `tf.sin(h)`. -/
def extraterrestrial_solar_radiation (m : Irradiance) (day_of_year : ℤ) :
    Except CloudnessError ℝ :=
  if day_of_year < 1 ∨ day_of_year > m.ndays then
    .error (.dayOfYearError day_of_year m.ndays)
  else do
    let delta ← m.declination_angle day_of_year
    let e0 ← m.earth_sun_distance day_of_year
    let h ← m.sunset_hour_angle day_of_year
    let first_term := h * tf.sin m.latitude * tf.sin delta
    let second_term := tf.cos m.latitude * tf.cos delta * Real.sin h
    return 37.60 * e0 * (first_term + second_term)

/-- `Irradiance.to_watts_per_m2` (static): `mj_per_m2 * 1000000 / 86400`. -/
def to_watts_per_m2 (mj_per_m2 : ℝ) : ℝ := mj_per_m2 * 1000000 / 86400

end Irradiance

/-- Modelled from the spec's words for claim C2 (the spec's table entry for
`earthSunDistance`): the same series with every trigonometric call invoked
in radian mode, i.e. `angle_in_degrees=False`. -/
def specEarthSunDistanceFormula (m : Irradiance) (day_of_year : ℤ) : ℝ :=
  let X : ℝ := 2 * Real.pi * ((day_of_year : ℝ) - 1) / (m.ndays : ℝ)
  1.000110 + 0.34221 * tf.cos X false + 0.01280 * tf.sin X false
    + 0.000719 * tf.cos (2 * X) false + 0.000077 * tf.sin (2 * X) false

/-- Modelled from the spec's words for claim C3: the extraterrestrial
radiation formula in which the `sin(h)` factor uses the same
degree-to-radian conversion as the other degree-based trig calls of the
formula, i.e. `tf.sin h` with the default degree flag. -/
def specExtraterrestrialFormula (m : Irradiance) (day_of_year : ℤ) :
    Except CloudnessError ℝ := do
  let delta ← m.declination_angle day_of_year
  let e0 ← m.earth_sun_distance day_of_year
  let h ← m.sunset_hour_angle day_of_year
  return 37.60 * e0 *
    (h * tf.sin m.latitude * tf.sin delta
      + tf.cos m.latitude * tf.cos delta * tf.sin h)

end

/-! ### Helper lemmas -/

/-- A concrete non-leap-year model: latitude 0, 365 days
(this is the state `Irradiance(0.0, 2021)` constructs). -/
noncomputable def m365 : Irradiance := ⟨0, 365⟩

/-- A concrete leap-year model: latitude 0, 366 days
(this is the state `Irradiance(0.0, 2020)` constructs). -/
noncomputable def m366 : Irradiance := ⟨0, 366⟩

lemma not_day_guard {d n : ℤ} (h1 : 1 ≤ d) (h2 : d ≤ n) : ¬(d < 1 ∨ d > n) := by
  omega

lemma declination_angle_ok (m : Irradiance) (d : ℤ) (h1 : 1 ≤ d)
    (h2 : d ≤ m.ndays) :
    m.declination_angle d =
      .ok (23.45 * tf.sin ((360 / (m.ndays : ℝ)) * (284 + (d : ℝ)))) := by
  rw [Irradiance.declination_angle, if_neg (not_day_guard h1 h2)]

lemma sunset_hour_angle_ok (m : Irradiance) (d : ℤ) (h1 : 1 ≤ d)
    (h2 : d ≤ m.ndays) :
    m.sunset_hour_angle d =
      .ok (Real.arccos (-(tf.tan m.latitude) *
        tf.tan (23.45 * tf.sin ((360 / (m.ndays : ℝ)) * (284 + (d : ℝ)))))) := by
  rw [Irradiance.sunset_hour_angle, if_neg (not_day_guard h1 h2),
    declination_angle_ok m d h1 h2]
  rfl

lemma earth_sun_distance_ok (m : Irradiance) (d : ℤ) (h1 : 1 ≤ d)
    (h2 : d ≤ m.ndays) :
    m.earth_sun_distance d =
      .ok (1.000110
        + 0.34221 * tf.cos (2 * Real.pi * ((d : ℝ) - 1) / (m.ndays : ℝ))
        + 0.01280 * tf.sin (2 * Real.pi * ((d : ℝ) - 1) / (m.ndays : ℝ))
        + 0.000719 * tf.cos (2 * (2 * Real.pi * ((d : ℝ) - 1) / (m.ndays : ℝ)))
        + 0.000077 * tf.sin (2 * (2 * Real.pi * ((d : ℝ) - 1) / (m.ndays : ℝ)))) := by
  rw [Irradiance.earth_sun_distance, if_neg (not_day_guard h1 h2)]

lemma extraterrestrial_ok (m : Irradiance) (d : ℤ) (h1 : 1 ≤ d)
    (h2 : d ≤ m.ndays) :
    ∃ delta e0 h, m.declination_angle d = .ok delta ∧
      m.earth_sun_distance d = .ok e0 ∧
      m.sunset_hour_angle d = .ok h ∧
      m.extraterrestrial_solar_radiation d =
        .ok (37.60 * e0 * (h * tf.sin m.latitude * tf.sin delta
          + tf.cos m.latitude * tf.cos delta * Real.sin h)) := by
  refine ⟨_, _, _, declination_angle_ok m d h1 h2,
    earth_sun_distance_ok m d h1 h2, sunset_hour_angle_ok m d h1 h2, ?_⟩
  rw [Irradiance.extraterrestrial_solar_radiation, if_neg (not_day_guard h1 h2),
    declination_angle_ok m d h1 h2, earth_sun_distance_ok m d h1 h2,
    sunset_hour_angle_ok m d h1 h2]
  rfl

lemma tf_sin_deg (x : ℝ) : tf.sin x = Real.sin (deg2rad x) := rfl

lemma tf_cos_deg (x : ℝ) : tf.cos x = Real.cos (deg2rad x) := rfl

lemma tf_tan_deg (x : ℝ) : tf.tan x = Real.tan (deg2rad x) := rfl

lemma deg2rad_zero : deg2rad 0 = 0 := by simp [deg2rad]

/-- The declination angle of `m365` on day 1. -/
noncomputable def delta0 : ℝ :=
  23.45 * tf.sin ((360 / ((365 : ℤ) : ℝ)) * (284 + ((1 : ℤ) : ℝ)))

lemma m365_decl : m365.declination_angle 1 = .ok delta0 :=
  declination_angle_ok m365 1 (by norm_num [m365]) (by norm_num [m365])

lemma delta0_bounds : -23.45 ≤ delta0 ∧ delta0 ≤ 23.45 := by
  have h1 := Real.neg_one_le_sin (deg2rad ((360 / ((365 : ℤ) : ℝ)) * (284 + ((1 : ℤ) : ℝ))))
  have h2 := Real.sin_le_one (deg2rad ((360 / ((365 : ℤ) : ℝ)) * (284 + ((1 : ℤ) : ℝ))))
  unfold delta0
  rw [tf_sin_deg]
  constructor <;> linarith

lemma m365_sh : m365.sunset_hour_angle 1 = .ok (Real.pi / 2) := by
  have h := sunset_hour_angle_ok m365 1 (by norm_num [m365]) (by norm_num [m365])
  rw [h]
  congr 1
  rw [show m365.latitude = 0 from rfl, tf_tan_deg, deg2rad_zero, Real.tan_zero,
    neg_zero, zero_mul, Real.arccos_zero]

lemma m365_es : m365.earth_sun_distance 1 = .ok 1.343039 := by
  have h := earth_sun_distance_ok m365 1 (by norm_num [m365]) (by norm_num [m365])
  rw [h]
  congr 1
  have hX : 2 * Real.pi * (((1 : ℤ) : ℝ) - 1) / (m365.ndays : ℝ) = 0 := by
    simp
  rw [hX]
  simp only [mul_zero, tf_cos_deg, tf_sin_deg, deg2rad_zero, Real.cos_zero,
    Real.sin_zero]
  norm_num

lemma cos_deg2rad_delta0_pos : 0 < Real.cos (deg2rad delta0) := by
  have hb := delta0_bounds
  have hπ := Real.pi_pos
  refine Real.cos_pos_of_mem_Ioo ⟨?_, ?_⟩
  · show -(Real.pi / 2) < deg2rad delta0
    unfold deg2rad
    nlinarith [mul_pos hπ (show (0 : ℝ) < delta0 + 90 by linarith [hb.1])]
  · show deg2rad delta0 < Real.pi / 2
    unfold deg2rad
    nlinarith [mul_pos hπ (show (0 : ℝ) < 90 - delta0 by linarith [hb.2])]

/-! ### Claim theorems -/

/-- C7: for every year ≥ 0, `is_leap_year` returns the Gregorian rule
(true iff divisible by 4 and (not divisible by 100 or divisible by 400));
for every year < 0 it raises a `ValueError` instead of returning. -/
theorem is_leap_year_gregorian (year : ℤ) :
    (0 ≤ year → ∃ b, is_leap_year year = .ok b ∧
      (b = true ↔ (4 ∣ year ∧ (¬(100 ∣ year) ∨ 400 ∣ year)))) ∧
    (year < 0 →
      is_leap_year year = .error (.valueError "Year must be a positive integer.")) := by
  constructor
  · intro hy
    refine ⟨year % 4 == 0 && (year % 100 != 0 || year % 400 == 0), ?_, ?_⟩
    · rw [is_leap_year, if_neg (by omega)]
    · simp only [Bool.and_eq_true, Bool.or_eq_true, beq_iff_eq, bne_iff_ne,
        ne_eq, Int.dvd_iff_emod_eq_zero]
  · intro hy
    rw [is_leap_year, if_pos hy]

/-- Witness for C7 at years 2000 and -1. -/
theorem is_leap_year_gregorian_witness :
    (∃ b, is_leap_year 2000 = .ok b ∧
      (b = true ↔ ((4 : ℤ) ∣ 2000 ∧ (¬((100 : ℤ) ∣ 2000) ∨ (400 : ℤ) ∣ 2000)))) ∧
    is_leap_year (-1) = .error (.valueError "Year must be a positive integer.") :=
  ⟨(is_leap_year_gregorian 2000).1 (by norm_num),
   (is_leap_year_gregorian (-1)).2 (by norm_num)⟩

/-- C5: every one of the four formula operations raises
`DayOfYearError day ndays` exactly when the day of year is outside
`[1, ndays]`, and returns a value otherwise. -/
theorem formulas_day_of_year_guard (m : Irradiance) (d : ℤ) :
    ((d < 1 ∨ d > m.ndays) →
      m.declination_angle d = .error (.dayOfYearError d m.ndays) ∧
      m.sunset_hour_angle d = .error (.dayOfYearError d m.ndays) ∧
      m.earth_sun_distance d = .error (.dayOfYearError d m.ndays) ∧
      m.extraterrestrial_solar_radiation d = .error (.dayOfYearError d m.ndays)) ∧
    (1 ≤ d → d ≤ m.ndays →
      (∃ v, m.declination_angle d = .ok v) ∧
      (∃ v, m.sunset_hour_angle d = .ok v) ∧
      (∃ v, m.earth_sun_distance d = .ok v) ∧
      (∃ v, m.extraterrestrial_solar_radiation d = .ok v)) := by
  constructor
  · intro hbad
    refine ⟨?_, ?_, ?_, ?_⟩
    · rw [Irradiance.declination_angle, if_pos hbad]
    · rw [Irradiance.sunset_hour_angle, if_pos hbad]
    · rw [Irradiance.earth_sun_distance, if_pos hbad]
    · rw [Irradiance.extraterrestrial_solar_radiation, if_pos hbad]
  · intro h1 h2
    obtain ⟨delta, e0, h, -, -, -, hx⟩ := extraterrestrial_ok m d h1 h2
    exact ⟨⟨_, declination_angle_ok m d h1 h2⟩,
      ⟨_, sunset_hour_angle_ok m d h1 h2⟩,
      ⟨_, earth_sun_distance_ok m d h1 h2⟩, ⟨_, hx⟩⟩

/-- Witness for C5 on `m365` at the out-of-range day 400 and the
in-range day 1. -/
theorem formulas_day_of_year_guard_witness :
    (m365.declination_angle 400 = .error (.dayOfYearError 400 m365.ndays) ∧
     m365.sunset_hour_angle 400 = .error (.dayOfYearError 400 m365.ndays) ∧
     m365.earth_sun_distance 400 = .error (.dayOfYearError 400 m365.ndays) ∧
     m365.extraterrestrial_solar_radiation 400 =
       .error (.dayOfYearError 400 m365.ndays)) ∧
    ((∃ v, m365.declination_angle 1 = .ok v) ∧
     (∃ v, m365.sunset_hour_angle 1 = .ok v) ∧
     (∃ v, m365.earth_sun_distance 1 = .ok v) ∧
     (∃ v, m365.extraterrestrial_solar_radiation 1 = .ok v)) :=
  ⟨(formulas_day_of_year_guard m365 400).1 (Or.inr (by norm_num [m365])),
   (formulas_day_of_year_guard m365 1).2 (by norm_num) (by norm_num [m365])⟩

/-- C6: for a non-negative year, construction succeeds exactly when the
latitude is in [-90, 90]; out of range it raises the latitude
`ValueError`, and on success `ndays` is 366 for a leap year, 365
otherwise, hence always 365 or 366. -/
theorem init_latitude_validation (latitude : ℝ) (year : ℤ) (hy : 0 ≤ year) :
    ((latitude < -90 ∨ latitude > 90) →
      Irradiance.init latitude year =
        .error (.valueError "Latitude must be between -90 and 90 degrees.")) ∧
    (-90 ≤ latitude → latitude ≤ 90 →
      ∃ m, Irradiance.init latitude year = .ok m ∧
        m.latitude = latitude ∧
        (∃ b, is_leap_year year = .ok b ∧
          m.ndays = if b then 366 else 365) ∧
        (m.ndays = 365 ∨ m.ndays = 366)) := by
  constructor
  · intro hbad
    rw [Irradiance.init, if_pos hbad]
  · intro hlo hhi
    have hgood : ¬(latitude < -90 ∨ latitude > 90) := by
      push_neg
      exact ⟨by linarith, by linarith⟩
    have hleap : is_leap_year year =
        .ok (year % 4 == 0 && (year % 100 != 0 || year % 400 == 0)) := by
      rw [is_leap_year, if_neg (by omega)]
    refine ⟨⟨latitude,
        if (year % 4 == 0 && (year % 100 != 0 || year % 400 == 0)) then 366
        else 365⟩, ?_, rfl, ⟨_, hleap, rfl⟩, ?_⟩
    · rw [Irradiance.init, if_neg hgood, hleap]
      rfl
    · cases (year % 4 == 0 && (year % 100 != 0 || year % 400 == 0)) with
      | false => exact Or.inl rfl
      | true => exact Or.inr rfl

/-- Witness for C6 at latitude 91 (rejected) and latitude 0, year 2020
(accepted). -/
theorem init_latitude_validation_witness :
    (Irradiance.init 91 2020 =
      .error (.valueError "Latitude must be between -90 and 90 degrees.")) ∧
    (∃ m, Irradiance.init 0 2020 = .ok m ∧
      m.latitude = 0 ∧
      (∃ b, is_leap_year 2020 = .ok b ∧ m.ndays = if b then 366 else 365) ∧
      (m.ndays = 365 ∨ m.ndays = 366)) :=
  ⟨(init_latitude_validation 91 2020 (by norm_num)).1 (Or.inr (by norm_num)),
   (init_latitude_validation 0 2020 (by norm_num)).2 (by norm_num) (by norm_num)⟩

/-- C10: `is_leap_year 0` does not raise and returns `true` (only strictly
negative years are rejected), so a model with year 0 and valid latitude is
constructed with `ndays = 366`. -/
theorem year_zero_accepted :
    is_leap_year 0 = .ok true ∧
    ∀ lat : ℝ, -90 ≤ lat → lat ≤ 90 →
      ∃ m, Irradiance.init lat 0 = .ok m ∧ m.ndays = 366 := by
  constructor
  · rfl
  · intro lat h1 h2
    have hgood : ¬(lat < -90 ∨ lat > 90) := by
      push_neg
      exact ⟨by linarith, by linarith⟩
    refine ⟨⟨lat, 366⟩, ?_, rfl⟩
    rw [Irradiance.init, if_neg hgood]
    rfl

/-- Witness for C10 at latitude 0. -/
theorem year_zero_accepted_witness :
    ∃ m, Irradiance.init 0 0 = .ok m ∧ m.ndays = 366 :=
  year_zero_accepted.2 0 (by norm_num) (by norm_num)

/-- C4 counterexample: `to_watts_per_m2 86.4` is not 1000000
(it is 1000). -/
theorem to_watts_at_86_4_ne_million :
    Irradiance.to_watts_per_m2 86.4 ≠ 1000000 := by
  norm_num [Irradiance.to_watts_per_m2]

/-- C4 amended: `to_watts_per_m2 x = x * 1000000 / 86400` for every real
x, and in particular `to_watts_per_m2 86.4 = 1000` exactly. -/
theorem to_watts_per_m2_formula :
    (∀ x : ℝ, Irradiance.to_watts_per_m2 x = x * 1000000 / 86400) ∧
    Irradiance.to_watts_per_m2 86.4 = 1000 :=
  ⟨fun _ => rfl, by norm_num [Irradiance.to_watts_per_m2]⟩

/-- Witness for the amended C4 at x = 2. -/
theorem to_watts_per_m2_formula_witness :
    Irradiance.to_watts_per_m2 2 = 2 * 1000000 / 86400 :=
  to_watts_per_m2_formula.1 2

/-- C9: for every model and every day in range, the declination angle is a
value in [-23.45, 23.45], being 23.45 times a sine. -/
theorem declination_angle_bounded (m : Irradiance) (d : ℤ) (h1 : 1 ≤ d)
    (h2 : d ≤ m.ndays) :
    ∃ v, m.declination_angle d = .ok v ∧ -23.45 ≤ v ∧ v ≤ 23.45 := by
  refine ⟨_, declination_angle_ok m d h1 h2, ?_, ?_⟩ <;>
  · have hs1 := Real.neg_one_le_sin (deg2rad ((360 / (m.ndays : ℝ)) * (284 + (d : ℝ))))
    have hs2 := Real.sin_le_one (deg2rad ((360 / (m.ndays : ℝ)) * (284 + (d : ℝ))))
    rw [tf_sin_deg]
    linarith

/-- Witness for C9 on `m365` at day 1. -/
theorem declination_angle_bounded_witness :
    ∃ v, m365.declination_angle 1 = .ok v ∧ -23.45 ≤ v ∧ v ≤ 23.45 :=
  declination_angle_bounded m365 1 (by norm_num) (by norm_num [m365])

lemma tf_sin_rad (x : ℝ) : tf.sin x false = Real.sin x := rfl

lemma tf_cos_rad (x : ℝ) : tf.cos x false = Real.cos x := rfl

lemma deg2rad_mem {x : ℝ} (h1 : 0 < x) (h2 : x < 90) :
    0 < deg2rad x ∧ deg2rad x < Real.pi / 2 := by
  unfold deg2rad
  constructor
  · exact div_pos (mul_pos h1 Real.pi_pos) (by norm_num)
  · nlinarith [mul_pos (show (0 : ℝ) < 90 - x by linarith) Real.pi_pos]

lemma cos_deg2rad_pos {x : ℝ} (h1 : 0 < x) (h2 : x < 90) :
    0 < Real.cos (deg2rad x) := by
  obtain ⟨a, b⟩ := deg2rad_mem h1 h2
  exact Real.cos_pos_of_mem_Ioo ⟨by linarith [Real.pi_pos], b⟩

lemma sin_deg2rad_pos {x : ℝ} (h1 : 0 < x) (h2 : x < 90) :
    0 < Real.sin (deg2rad x) := by
  obtain ⟨a, b⟩ := deg2rad_mem h1 h2
  exact Real.sin_pos_of_pos_of_lt_pi a (by linarith [Real.pi_pos])

/-- C8: with the default degree mode throughout, `arcsin ∘ sin` is the
identity on [-90, 90], `arccos ∘ cos` on [0, 180], and `arctan ∘ tan` on
(-90, 90); in the real-number model the round trips are exact. -/
theorem trig_roundtrip :
    (∀ x : ℝ, -90 ≤ x → x ≤ 90 → tf.arcsin (tf.sin x) = x) ∧
    (∀ x : ℝ, 0 ≤ x → x ≤ 180 → tf.arccos (tf.cos x) = x) ∧
    (∀ x : ℝ, -90 < x → x < 90 → tf.arctan (tf.tan x) = x) := by
  have hπ := Real.pi_pos
  refine ⟨fun x h1 h2 => ?_, fun x h1 h2 => ?_, fun x h1 h2 => ?_⟩
  · rw [tf_sin_deg]
    have e : tf.arcsin (Real.sin (deg2rad x)) =
        rad2deg (Real.arcsin (Real.sin (deg2rad x))) := rfl
    rw [e, Real.arcsin_sin
      (by unfold deg2rad
          nlinarith [mul_nonneg (show (0 : ℝ) ≤ x + 90 by linarith) hπ.le])
      (by unfold deg2rad
          nlinarith [mul_nonneg (show (0 : ℝ) ≤ 90 - x by linarith) hπ.le])]
    unfold rad2deg deg2rad
    field_simp
  · rw [tf_cos_deg]
    have e : tf.arccos (Real.cos (deg2rad x)) =
        rad2deg (Real.arccos (Real.cos (deg2rad x))) := rfl
    rw [e, Real.arccos_cos
      (by unfold deg2rad
          positivity)
      (by unfold deg2rad
          nlinarith [mul_nonneg (show (0 : ℝ) ≤ 180 - x by linarith) hπ.le])]
    unfold rad2deg deg2rad
    field_simp
  · rw [tf_tan_deg]
    have e : tf.arctan (Real.tan (deg2rad x)) =
        rad2deg (Real.arctan (Real.tan (deg2rad x))) := rfl
    rw [e, Real.arctan_tan
      (by unfold deg2rad
          nlinarith [mul_pos (show (0 : ℝ) < x + 90 by linarith) hπ])
      (by unfold deg2rad
          nlinarith [mul_pos (show (0 : ℝ) < 90 - x by linarith) hπ])]
    unfold rad2deg deg2rad
    field_simp

/-- Witness for C8 at 45, 60 and 30 degrees. -/
theorem trig_roundtrip_witness :
    tf.arcsin (tf.sin 45) = 45 ∧ tf.arccos (tf.cos 60) = 60 ∧
    tf.arctan (tf.tan 30) = 30 :=
  ⟨trig_roundtrip.1 45 (by norm_num) (by norm_num),
   trig_roundtrip.2.1 60 (by norm_num) (by norm_num),
   trig_roundtrip.2.2 30 (by norm_num) (by norm_num)⟩

/-- C1 (code bug evidence): at latitude 0 on day 1 of a 365-day year, the
code returns the raw `np.arccos` value π/2 — a radian quantity — although
its own docstring and the spec promise the sunset hour angle in degrees
(which would be 90 here). -/
theorem sunset_hour_angle_returns_radians :
    m365.sunset_hour_angle 1 = .ok (Real.pi / 2) ∧ Real.pi / 2 ≠ 90 := by
  refine ⟨m365_sh, fun h => ?_⟩
  have h4 := Real.pi_lt_four
  linarith

/-- C2 (code bug evidence): on day 184 of a 366-day model, the code's
`earth_sun_distance` (whose `tf` calls use the default degree mode, so the
radian quantity X gets converted again) differs from the spec's formula
with radian-mode trigonometric calls. -/
theorem earth_sun_distance_degree_mode_bug :
    m366.earth_sun_distance 184 ≠ .ok (specEarthSunDistanceFormula m366 184) := by
  have hπ := Real.pi_pos
  have h4 := Real.pi_lt_four
  have hX : 2 * Real.pi * (((184 : ℤ) : ℝ) - 1) / (m366.ndays : ℝ) = Real.pi := by
    norm_num [m366]
    ring
  have hspec : specEarthSunDistanceFormula m366 184 = 0.658619 := by
    simp only [specEarthSunDistanceFormula]
    rw [hX, tf_cos_rad, tf_sin_rad, tf_cos_rad, tf_sin_rad, Real.cos_pi,
      Real.sin_pi, Real.cos_two_pi, Real.sin_two_pi]
    norm_num
  have hcode := earth_sun_distance_ok m366 184 (by norm_num [m366]) (by norm_num [m366])
  rw [hcode, hX, hspec]
  rw [tf_cos_deg, tf_sin_deg, tf_cos_deg, tf_sin_deg]
  have hc1 := cos_deg2rad_pos hπ (by linarith)
  have hs1 := sin_deg2rad_pos hπ (by linarith)
  have hc2 := cos_deg2rad_pos (show (0 : ℝ) < 2 * Real.pi by linarith) (by linarith)
  have hs2 := sin_deg2rad_pos (show (0 : ℝ) < 2 * Real.pi by linarith) (by linarith)
  intro hcontra
  have h := Except.ok.inj hcontra
  nlinarith [mul_pos (show (0 : ℝ) < 0.34221 by norm_num) hc1,
    mul_pos (show (0 : ℝ) < 0.01280 by norm_num) hs1,
    mul_pos (show (0 : ℝ) < 0.000719 by norm_num) hc2,
    mul_pos (show (0 : ℝ) < 0.000077 by norm_num) hs2]

/-- C3 counterexample: at latitude 0 on day 1 of a 365-day year, the code's
`extraterrestrial_solar_radiation` differs from the spec's formula in which
the `sin(h)` factor uses the same degree-to-radian conversion as the other
degree-based trig calls (the code applies `np.sin` to `h` directly). -/
theorem extraterrestrial_sin_h_degree_mode_false :
    m365.extraterrestrial_solar_radiation 1 ≠ specExtraterrestrialFormula m365 1 := by
  have hπ := Real.pi_pos
  have hcode : m365.extraterrestrial_solar_radiation 1 =
      .ok (37.60 * 1.343039 * ((Real.pi / 2) * tf.sin m365.latitude * tf.sin delta0
        + tf.cos m365.latitude * tf.cos delta0 * Real.sin (Real.pi / 2))) := by
    rw [Irradiance.extraterrestrial_solar_radiation,
      if_neg (not_day_guard (by norm_num) (by norm_num [m365])),
      m365_decl, m365_es, m365_sh]
    rfl
  have hspec : specExtraterrestrialFormula m365 1 =
      .ok (37.60 * 1.343039 * ((Real.pi / 2) * tf.sin m365.latitude * tf.sin delta0
        + tf.cos m365.latitude * tf.cos delta0 * tf.sin (Real.pi / 2))) := by
    unfold specExtraterrestrialFormula
    rw [m365_decl, m365_es, m365_sh]
    rfl
  rw [hcode, hspec]
  simp only [show m365.latitude = 0 from rfl, tf_sin_deg, tf_cos_deg,
    deg2rad_zero, Real.sin_zero, Real.cos_zero, Real.sin_pi_div_two,
    mul_zero, zero_mul, one_mul, mul_one, zero_add, ne_eq, Except.ok.injEq]
  have hB := cos_deg2rad_delta0_pos
  have hs : Real.sin (deg2rad (Real.pi / 2)) < 1 := by
    have h0 : 0 < deg2rad (Real.pi / 2) :=
      (deg2rad_mem (by linarith) (by linarith [Real.pi_lt_four])).1
    have hlt := Real.sin_lt h0
    have harg : deg2rad (Real.pi / 2) < 1 := by
      unfold deg2rad
      nlinarith [Real.pi_lt_four]
    linarith
  intro hcontra
  nlinarith [mul_pos hB (show (0 : ℝ) < 1 - Real.sin (deg2rad (Real.pi / 2)) by linarith)]

/-- C3 amended: for every model and in-range day, the extraterrestrial
radiation is `37.60 * e0 * (h * sin(lat) * sin(δ) + cos(lat) * cos(δ) * sin(h))`
where the degree-mode trig is used on the latitude and declination, but the
`sin(h)` factor applies the base radian sine directly to the hour angle with
no degree-to-radian conversion. -/
theorem extraterrestrial_formula_radian_sin_h (m : Irradiance) (d : ℤ)
    (h1 : 1 ≤ d) (h2 : d ≤ m.ndays) :
    ∃ delta e0 h, m.declination_angle d = .ok delta ∧
      m.earth_sun_distance d = .ok e0 ∧
      m.sunset_hour_angle d = .ok h ∧
      m.extraterrestrial_solar_radiation d =
        .ok (37.60 * e0 * (h * tf.sin m.latitude * tf.sin delta
          + tf.cos m.latitude * tf.cos delta * Real.sin h)) :=
  extraterrestrial_ok m d h1 h2

/-- Witness for the amended C3 on `m365` at day 1. -/
theorem extraterrestrial_formula_radian_sin_h_witness :
    ∃ delta e0 h, m365.declination_angle 1 = .ok delta ∧
      m365.earth_sun_distance 1 = .ok e0 ∧
      m365.sunset_hour_angle 1 = .ok h ∧
      m365.extraterrestrial_solar_radiation 1 =
        .ok (37.60 * e0 * (h * tf.sin m365.latitude * tf.sin delta
          + tf.cos m365.latitude * tf.cos delta * Real.sin h)) :=
  extraterrestrial_formula_radian_sin_h m365 1 (by norm_num) (by norm_num [m365])

end Cloudness
